import Mathlib

/-!
Verification of the weather MCP service (shallow embedding).

The development embeds the two Python modules of the repository:

* `weather_mcp.py` (JWT-token variant): credential manager `JWTAuthManager`,
  the sub-query helpers (`_get_city_info`, `_get_weather_warning`,
  `_get_air_quality_current`, `_get_air_quality_forecast`,
  `_get_weather_indices`) and the two tool operations
  (`get_current_weather`, `get_weather_forecast`).
* `weather_server.py` (static-key variant): the location resolver
  `_get_location_id` and the `main` entry point.

Python exceptions are modelled with `Except String`; remote HTTP behaviour
is an explicit environment record whose fields give each endpoint's
decoded outcome (`.error e` standing for any exception raised inside the
corresponding request, with `e` the Python `str` of the exception).
Provider JSON objects are modelled as records; a key read with
`dict.get(k, "")` is modelled as a plain `String` field whose value is
`""` when the key is absent.
-/

namespace WeatherSpec

/-! ### Python primitives -/

/-- Value of a list of decimal digit characters. -/
def digitsToNat (cs : List Char) : Nat :=
  cs.foldl (fun acc c => acc * 10 + (c.toNat - 48)) 0

/-- Python `str.isdigit()`: true iff the string is nonempty and every
character is a digit.  (CPython also accepts non-ASCII Unicode digit
forms; the claims only concern decimal-digit and ordinary text inputs,
on which the two notions coincide.) -/
def pyIsdigit (s : String) : Bool :=
  !s.isEmpty && s.toList.all Char.isDigit

/-- Python `int(s)`: optional sign followed by decimal digits, raising
`ValueError` otherwise.  (CPython additionally strips whitespace and
allows `_` separators; those forms are not claim-relevant.) -/
def pyInt (s : String) : Except String Int :=
  let cs := s.toList
  let p := match cs with
    | '-' :: rest => ((-1 : Int), rest)
    | '+' :: rest => ((1 : Int), rest)
    | _ => ((1 : Int), cs)
  if p.2.isEmpty || !p.2.all Char.isDigit then
    .error ("invalid literal for int() with base 10: \x27" ++ s ++ "\x27")
  else
    .ok (p.1 * (digitsToNat p.2 : Int))

/-- Python `float(s)` restricted to plain decimal literals
(optional sign, digits, optional fractional part), raising `ValueError`
otherwise.  Exponent/`inf`/`nan` forms are not claim-relevant.  The
value is modelled exactly as a rational; the only use in the source is
the sign test `float(precip) > 0`, on which IEEE rounding agrees with
the exact value. -/
def pyFloat (s : String) : Except String Rat :=
  let cs := s.toList
  let p := match cs with
    | '-' :: rest => ((-1 : Rat), rest)
    | '+' :: rest => ((1 : Rat), rest)
    | _ => ((1 : Rat), cs)
  let ip := p.2.takeWhile Char.isDigit
  let rest2 := p.2.dropWhile Char.isDigit
  match rest2 with
  | [] =>
    if ip.isEmpty then
      .error ("could not convert string to float: \x27" ++ s ++ "\x27")
    else
      .ok (p.1 * (digitsToNat ip : Rat))
  | '.' :: fr =>
    if (ip.isEmpty && fr.isEmpty) || !fr.all Char.isDigit then
      .error ("could not convert string to float: \x27" ++ s ++ "\x27")
    else
      .ok (p.1 * ((digitsToNat ip : Rat) + (digitsToNat fr : Rat) / (10 : Rat) ^ fr.length))
  | _ => .error ("could not convert string to float: \x27" ++ s ++ "\x27")

namespace WeatherMcp

/-! ### JWTAuthManager (`weather_mcp.py`, class `JWTAuthManager`)

The signed token returned by `jwt.encode` is modelled as the record of
the data it is built from (header `kid` and payload `sub`/`iat`/`exp`);
`jwt.encode` is injective on this data for a fixed key, so the record
is a faithful stand-in for the opaque token string.  The external
signing call may raise; a call's outcome is passed in as the `signOk`
flag. -/

structure TokenRec where
  kid : String
  sub : String
  iat : Int
  exp : Int
deriving Repr, DecidableEq

/-- Mutable state of a `JWTAuthManager` instance (`self._token`,
`self._expiry`) together with its immutable identity fields.  The
constructor sets `_token = None` and `_expiry = 0`; a generated jwt
string is never empty, so Python's truthiness test `not self._token`
is `token.isNone`. -/
structure AuthState where
  projectId : String
  keyId : String
  token : Option TokenRec
  expiry : Int
deriving Repr, DecidableEq

def TOKEN_EXPIRY : Int := 82800

def REFRESH_MARGIN : Int := 300

/-- `JWTAuthManager._generate_token(now)`: assigns `self._expiry` first,
then calls `jwt.encode` (modelled by `signOk`); when the signing call
raises, the expiry mutation has already happened and the stored token is
left unchanged, mirroring the source's statement order. -/
def generateTokenE (s : AuthState) (now : Int) (signOk : Bool) :
    AuthState × Except String TokenRec :=
  let expiry := now + TOKEN_EXPIRY
  let s1 : AuthState := { s with expiry := expiry }
  if signOk then
    let tok : TokenRec :=
      { kid := s.keyId, sub := s.projectId, iat := now - 30, exp := expiry }
    ({ s1 with token := some tok }, .ok tok)
  else
    (s1, .error "签名失败")

/-- `JWTAuthManager.get_token()`; `now = int(time.time())` is passed as a
parameter.  The third component counts how many times
`_generate_token` was invoked during the call. -/
def get_token (s : AuthState) (now : Int) (signOk : Bool) :
    AuthState × Except String TokenRec × Nat :=
  match s.token with
  | none =>
    let g := generateTokenE s now signOk
    (g.1, g.2, 1)
  | some t =>
    if now ≥ s.expiry - REFRESH_MARGIN then
      let g := generateTokenE s now signOk
      (g.1, g.2, 1)
    else
      (s, .ok t, 0)

end WeatherMcp

namespace WeatherServer

/-! ### Static-key variant (`weather_server.py`) -/

/-- One entry of the city-lookup response's `location` array.  `id`,
`adm1`, `adm2` are read with `city.get(k, "")` (absent modelled as
`""`; for the `adm1` truthiness test, absent/`None` and `""` behave
identically); `name` is read with `city.get("name", location)`, whose
default is the query string, hence an `Option`. -/
structure CityRec where
  id : String
  name : Option String
  adm1 : String
  adm2 : String
deriving Repr, DecidableEq

/-- `_get_location_id(location)`.  `lookup` is the outcome of the
`_make_request("/geo/v2/city/lookup", ...)` call: `.error e` for a
raised exception, `.ok cities` for the decoded `location` array (an
absent or empty array both raise the not-found error below, so the
empty list covers both). -/
def getLocationId (location : String) (lookup : Except String (List CityRec)) :
    Except String (String × String) :=
  if pyIsdigit location then
    .ok (location, location)
  else
    match lookup with
    | .error e => .error e
    | .ok [] => .error ("未找到城市: " ++ location)
    | .ok (city :: _) =>
      let city_name := city.name.getD location
      let display :=
        if city.adm1 ≠ "" ∧ city.adm1 ≠ city_name then
          city.adm1 ++ city_name
        else
          city_name
      .ok (city.id, display)

/-- Observable events of `weather_server.main`. -/
inductive Ev where
  | errLine (msg : String)
  | exitCode (code : Nat)
  | serve
deriving Repr, DecidableEq

/-- Statement list of `main()` as written in the source: inside the
missing-key branch the statements are the two diagnostics, `sys.exit(1)`
and then — still inside that branch — `mcp.run()`. -/
def mainStmts (apiKey : String) : List Ev :=
  if apiKey = "" ∨ apiKey = "your_api_key_here" then
    [.errLine "错误: 未配置和风天气 API Key",
     .errLine "请设置 QWEATHER_API_KEY 环境变量或在 .env 文件中配置",
     .exitCode 1,
     .serve]
  else
    []

/-- Sequential execution: `sys.exit` raises `SystemExit`, so no
statement after it executes. -/
def execEvents : List Ev → List Ev
  | [] => []
  | .exitCode c :: _ => [.exitCode c]
  | e :: rest => e :: execEvents rest

/-- Observable trace of `main()` for a given `QWEATHER_API_KEY` value. -/
def mainTrace (apiKey : String) : List Ev :=
  execEvents (mainStmts apiKey)

end WeatherServer

namespace WeatherMcp

/-! ### Data models of `weather_mcp.py` (pydantic `BaseModel`s) -/

structure CurrentWeather where
  location : String
  obs_time : String
  temp : String
  feels_like : String
  text : String
  wind_dir : String
  wind_scale : String
  humidity : String
  precip : String
  vis : String
  pressure : String
deriving Repr, DecidableEq

structure WeatherWarning where
  sender_name : String
  event_type : String
  severity : String
  headline : String
  description : String
  instruction : String
  effective_time : String
  expire_time : String
  color : String
deriving Repr, DecidableEq

structure AirQuality where
  aqi : String
  category : String
  primary_pollutant : String
  pm25 : String
  pm10 : String
  no2 : String
  o3 : String
  co : String
  so2 : String
  health_effect : String
  health_advice_general : String
  health_advice_sensitive : String
deriving Repr, DecidableEq

structure WeatherIndex where
  name : String
  category : String
  text : String
deriving Repr, DecidableEq

/-! ### Provider JSON records -/

/-- A `location` array entry of the city-lookup response, as read by
`_get_city_info`: every field except `name` is read with
`city.get(k, "")` (absent modelled as `""`); `name` defaults to the
queried city name, hence an `Option`. -/
structure CityRec where
  id : String
  name : Option String
  adm1 : String
  adm2 : String
  lat : String
  lon : String
deriving Repr, DecidableEq

/-- The `now` object of a `/v7/weather/now` response; fields are read
with `now.get(k, "")`. -/
structure NowFields where
  obsTime : String
  temp : String
  feelsLike : String
  text : String
  windDir : String
  windScale : String
  humidity : String
  precip : String
  vis : String
  pressure : String
deriving Repr, DecidableEq

/-- A decoded `/v7/weather/now` response body: `none` when the `"now"`
key is absent. -/
def NowResp := Option NowFields

/-- One entry of the alert response's `alerts` array; plain fields are
the values read with `alert.get(k, "")`, and the two nested reads
`alert.get("eventType", {}).get("name", "")` and
`alert.get("color", {}).get("code", "")` are flattened into
`eventTypeName` / `colorCode`. -/
structure AlertRec where
  senderName : String
  eventTypeName : String
  severity : String
  headline : String
  description : String
  instruction : String
  effectiveTime : String
  expireTime : String
  colorCode : String
deriving Repr, DecidableEq

/-- A decoded alert-endpoint response body: the
`metadata.zeroResult` flag (absent modelled as `false`, the `.get`
default) and the `alerts` array (`data.get("alerts", [])`). -/
structure AlertResp where
  zeroResult : Bool
  alerts : List AlertRec
deriving Repr, DecidableEq

/-- One entry of the air-quality-forecast `days` array, restricted to
its `indexes` list as read by the renderer. -/
structure AqIdxRec where
  aqiDisplay : String
  category : String
deriving Repr, DecidableEq

structure AqDayRec where
  indexes : List AqIdxRec
deriving Repr, DecidableEq

/-- One entry of an indices response's `daily` array
(`item.get(k, "")`). -/
structure IdxRec where
  name : String
  category : String
  text : String
deriving Repr, DecidableEq

/-- One entry of a `/v7/weather/{days}d` response's `daily` array
(`day.get(k, "")`). -/
structure DayRec where
  fxDate : String
  tempMax : String
  tempMin : String
  textDay : String
  textNight : String
  windDirDay : String
  windScaleDay : String
  humidity : String
  precip : String
  uvIndex : String
deriving Repr, DecidableEq

/-! ### Sub-query helpers -/

/-- `_get_city_info(city_name)`.  `lookup` is the outcome of
`_make_request("/geo/v2/city/lookup", ...)`; an absent or empty
`location` array both raise the not-found error, so `.ok []` covers
both.  Returns the tuple
`(location_id, display_name, lat, lon, adm1, adm2)`. -/
def getCityInfo (city_name : String) (lookup : Except String (List CityRec)) :
    Except String (String × String × String × String × String × String) :=
  match lookup with
  | .error e => .error e
  | .ok [] => .error ("未找到城市: " ++ city_name)
  | .ok (city :: _) =>
    let name := city.name.getD city_name
    let display_name :=
      if city.adm1 ≠ "" ∧ city.adm1 ≠ name then city.adm1 ++ name else name
    .ok (city.id, display_name, city.lat, city.lon, city.adm1, city.adm2)

/-- `_get_weather_warning(lat, lon)`.  `resp` is the outcome of the
whole `try` body up to the decoded response JSON (coordinate `float`
parsing, the HTTP request, `raise_for_status` and `.json()`): any
exception there is `.error` and is swallowed to `[]` (logged as a
warning in the source). -/
def getWeatherWarning (lat lon : String) (resp : Except String AlertResp) :
    List WeatherWarning :=
  if lat = "" ∨ lon = "" then
    []
  else
    match resp with
    | .error _ => []
    | .ok r =>
      if r.zeroResult then
        []
      else
        r.alerts.map (fun a =>
          { sender_name := a.senderName
            event_type := a.eventTypeName
            severity := a.severity
            headline := a.headline
            description := a.description
            instruction := a.instruction
            effective_time := a.effectiveTime
            expire_time := a.expireTime
            color := a.colorCode })

/-- `_get_air_quality_current(lat, lon)`.  The JSON decoding of the
body (`indexes[0]`, the pollutant table, the nested `health` reads) is
abstracted into the environment's decoded value: `resp = .ok none`
stands for an empty `indexes` list, `.ok (some aq)` for a decoded
`AirQuality`, `.error` for any exception in the `try` body — all of
which the source swallows to `None`. -/
def getAirQualityCurrent (lat lon : String)
    (resp : Except String (Option AirQuality)) : Option AirQuality :=
  if lat = "" ∨ lon = "" then
    none
  else
    match resp with
    | .error _ => none
    | .ok a => a

/-- `_get_air_quality_forecast(lat, lon)`: returns the response's
`days` array (`data.get("days", [])`), swallowing any exception to
`[]`. -/
def getAirQualityForecast (lat lon : String)
    (resp : Except String (List AqDayRec)) : List AqDayRec :=
  if lat = "" ∨ lon = "" then
    []
  else
    match resp with
    | .error _ => []
    | .ok ds => ds

/-- `_get_weather_indices(location_id, days)`: maps the response's
`daily` array to `WeatherIndex` values, swallowing any exception to
`[]`. -/
def getWeatherIndices (resp : Except String (List IdxRec)) :
    List WeatherIndex :=
  match resp with
  | .error _ => []
  | .ok daily =>
    daily.map (fun item =>
      { name := item.name, category := item.category, text := item.text })

/-! ### `get_current_weather` -/

/-- Remote behaviour for one `get_current_weather` invocation: the
outcome of each endpoint the pipeline may consult. -/
structure CurrentEnv where
  lookup : Except String (List CityRec)
  nowResp : Except String NowResp
  warnResp : Except String AlertResp
  aqResp : Except String (Option AirQuality)
  idxResp : Except String (List IdxRec)

/-- An element of the heterogeneous `results` list produced by
`asyncio.gather(*tasks, return_exceptions=True)`: the weather task
yields a decoded response or a captured exception; the optional tasks
never raise (each swallows its own failures) and yield their values. -/
inductive SubResult where
  | wdata (d : NowResp)
  | exn (msg : String)
  | warns (ws : List WeatherWarning)
  | aq (x : Option AirQuality)
  | idx (xs : List WeatherIndex)

/-- Python list indexing `results[i]`, raising `IndexError` when out of
range. -/
def getResult (rs : List SubResult) (i : Nat) : Except String SubResult :=
  match rs.get? i with
  | some r => .ok r
  | none => .error "list index out of range"

/-- Python truthiness of a `results` element. -/
def pyTruthy : SubResult → Bool
  | .wdata _ => true
  | .exn _ => true
  | .warns ws => !ws.isEmpty
  | .aq x => x.isSome
  | .idx xs => !xs.isEmpty

def isExn : SubResult → Bool
  | .exn _ => true
  | _ => false

/-- Dynamic use of a `results` element as a warning list.  The default
branches model Python's dynamic typing; in every execution that
reaches the rendering phase the element has the right type (the
misaligned flag combinations abort earlier with `IndexError`). -/
def asWarns : SubResult → List WeatherWarning
  | .warns ws => ws
  | _ => []

def asAq : SubResult → Option AirQuality
  | .aq x => x
  | _ => none

def asIdx : SubResult → List WeatherIndex
  | .idx xs => xs
  | _ => []

/-- The always-present header lines of the current-weather report,
plus the conditional pressure line and the trailing
precipitation/visibility lines, as built in `get_current_weather`. -/
def currentBaseLines (w : CurrentWeather) : List String :=
  ["📍 城市: " ++ w.location,
   "🕐 观测时间: " ++ w.obs_time,
   "🌡️ 温度: " ++ w.temp ++ "°C",
   "🤒 体感温度: " ++ w.feels_like ++ "°C",
   "☁️ 天气: " ++ w.text,
   "🧭 风向: " ++ w.wind_dir,
   "💨 风力: " ++ w.wind_scale ++ "级",
   "💧 湿度: " ++ w.humidity ++ "%"]
  ++ (if w.pressure ≠ "" then ["📊 气压: " ++ w.pressure ++ "hPa"] else [])
  ++ ["🌧️ 降水量: " ++ w.precip ++ "mm",
      "👁️ 能见度: " ++ w.vis ++ "km"]

/-- The per-warning lines of the alert section, with `i` the 1-based
`enumerate` counter: four lines per displayed warning, the description
truncated with `warning.description[:100]` followed by a literal
`"..."`. -/
def renderWarningItems (i : Nat) : List WeatherWarning → List String
  | [] => []
  | w :: rest =>
    ["\n  " ++ toString i ++ ". " ++ w.headline,
     "     类型: " ++ w.event_type,
     "     级别: " ++ w.severity,
     "     描述: " ++ w.description.take 100 ++ "..."]
    ++ renderWarningItems (i + 1) rest

/-- The alert section of the current-weather report: the source
iterates `enumerate(warning_list[:3], 1)`. -/
def renderWarningSection (ws : List WeatherWarning) : List String :=
  "\n⚠️ 天气预警:" :: renderWarningItems 1 (ws.take 3)

/-- The air-quality section of the current-weather report. -/
def renderAqSection (a : AirQuality) : List String :=
  ["\n🌫️ 空气质量:",
   "  AQI: " ++ a.aqi ++ " (" ++ a.category ++ ")",
   "  首要污染物: " ++ a.primary_pollutant,
   "  PM2.5: " ++ a.pm25,
   "  PM10: " ++ a.pm10]
  ++ (if a.health_effect ≠ "" then ["  健康影响: " ++ a.health_effect] else [])
  ++ (if a.health_advice_general ≠ "" then ["  建议: " ++ a.health_advice_general] else [])

/-- The indices section of the current-weather report. -/
def renderIdxSection (xs : List WeatherIndex) : List String :=
  "\n📊 今日指数:" ::
    xs.flatMap (fun x =>
      ("  • " ++ x.name ++ ": " ++ x.category)
        :: (if x.text ≠ "" then ["    " ++ x.text] else []))

/-- The body of `get_current_weather`'s `try` block: city resolution,
the conditionally built gather list, the fixed-index result parsing,
and rendering.  A `.error` is an exception reaching the tool's
`except` handler; a `.ok` is the returned text. -/
def getCurrentWeatherE (location : String)
    (include_warning include_air_quality include_indices : Bool)
    (env : CurrentEnv) : Except String String := do
  let info ← getCityInfo location env.lookup
  let city_name := info.2.1
  let lat := info.2.2.1
  let lon := info.2.2.2.1
  let results : List SubResult :=
    [match env.nowResp with
     | .ok d => .wdata d
     | .error e => .exn e]
    ++ (if include_warning then [.warns (getWeatherWarning lat lon env.warnResp)] else [])
    ++ (if include_air_quality then [.aq (getAirQualityCurrent lat lon env.aqResp)] else [])
    ++ (if include_indices then [.idx (getWeatherIndices env.idxResp)] else [])
  let r0 ← getResult results 0
  let weather_data : NowResp ←
    match r0 with
    | .exn e => .error e
    | .wdata d => .ok d
    | _ => .ok none
  let warning_list ← if include_warning then getResult results 1 else pure (SubResult.warns [])
  let air_quality ← if include_air_quality then getResult results 2 else pure (SubResult.aq none)
  let indices ← if include_indices then getResult results 3 else pure (SubResult.idx [])
  match weather_data with
  | none => pure ("无法获取 " ++ city_name ++ " 的天气信息")
  | some now =>
    let weather : CurrentWeather :=
      { location := city_name
        obs_time := now.obsTime
        temp := now.temp
        feels_like := now.feelsLike
        text := now.text
        wind_dir := now.windDir
        wind_scale := now.windScale
        humidity := now.humidity
        precip := now.precip
        vis := now.vis
        pressure := now.pressure }
    let lines := currentBaseLines weather
      ++ (if include_warning && pyTruthy warning_list && !isExn warning_list then
            renderWarningSection (asWarns warning_list)
          else [])
      ++ (if include_air_quality && pyTruthy air_quality && !isExn air_quality then
            match asAq air_quality with
            | some a => renderAqSection a
            | none => []
          else [])
      ++ (if include_indices && pyTruthy indices && !isExn indices then
            renderIdxSection (asIdx indices)
          else [])
    pure (String.intercalate "\n" lines)

/-- The tool operation `get_current_weather`: the `try`/`except`
boundary turning any pipeline exception into a textual failure
message. -/
def get_current_weather (location : String)
    (include_warning include_air_quality include_indices : Bool)
    (env : CurrentEnv) : String :=
  match getCurrentWeatherE location include_warning include_air_quality
      include_indices env with
  | .ok s => s
  | .error e => "获取天气失败: " ++ e

/-! ### `get_weather_forecast` -/

def validDays : List Int := [3, 7, 10, 15, 30]

/-- The `days` validation at the top of `get_weather_forecast`:
values outside the supported set silently become 7. -/
def normalizeDays (days : Int) : Int :=
  if days ∈ validDays then days else 7

/-- The report's first line, built from the resolved city name and the
validated day count. -/
def forecastHeader (city_name : String) (days : Int) : String :=
  "📍 " ++ city_name ++ " 未来" ++ toString days ++ "天天气预报:\n"

/-- Proleptic-Gregorian leap year. -/
def isLeap (y : Nat) : Bool :=
  (y % 4 = 0 && y % 100 ≠ 0) || y % 400 = 0

def daysInMonth (y m : Nat) : Nat :=
  if m = 2 then (if isLeap y then 29 else 28)
  else if m = 4 || m = 6 || m = 9 || m = 11 then 30
  else 31

def daysBeforeMonth (y m : Nat) : Nat :=
  (List.range (m - 1)).foldl (fun acc k => acc + daysInMonth y (k + 1)) 0

/-- Rata-die day number of a Gregorian date (0001-01-01 is day 1, a
Monday). -/
def rataDie (y m d : Nat) : Nat :=
  365 * (y - 1) + (y - 1) / 4 - (y - 1) / 100 + (y - 1) / 400
    + daysBeforeMonth y m + d

/-- Splitting a character list on `-`, the separator of the
`%Y-%m-%d` format. -/
def splitDash : List Char → List (List Char)
  | [] => [[]]
  | c :: rest =>
    match splitDash rest with
    | [] => [[]]
    | g :: gs => if c = '-' then [] :: g :: gs else (c :: g) :: gs

/-- `datetime.strptime(s, "%Y-%m-%d")` as a date validator: three
dash-separated decimal fields with the month and day in range.
(Field-width details of `strptime` beyond this are not
claim-relevant.) -/
def parseIsoDate (s : String) : Option (Nat × Nat × Nat) :=
  match splitDash s.toList with
  | [ys, ms, ds] =>
    if !ys.isEmpty && ys.all Char.isDigit && !ms.isEmpty && ms.all Char.isDigit
        && !ds.isEmpty && ds.all Char.isDigit then
      let y := digitsToNat ys
      let m := digitsToNat ms
      let d := digitsToNat ds
      if 1 ≤ y && 1 ≤ m && m ≤ 12 && 1 ≤ d && d ≤ daysInMonth y m then
        some (y, m, d)
      else
        none
    else
      none
  | _ => none

def weekdayNames : List String :=
  ["周一", "周二", "周三", "周四", "周五", "周六", "周日"]

/-- The weekday computation of the forecast loop: `date.weekday()`
(Monday = 0) indexed into the weekday-name list, with an unparsable
date degrading to the empty string via the inner `try`. -/
def weekdayName (s : String) : String :=
  match parseIsoDate s with
  | none => ""
  | some ymd =>
    (weekdayNames.get? ((rataDie ymd.1 ymd.2.1 ymd.2.2 - 1) % 7)).getD ""

/-- The UV classification of the forecast loop: `uv_desc` stays `""`
for an empty `uv_index`; otherwise `int(uv_index)` (which may raise
`ValueError`) is bucketed. -/
def uvDesc (uv_index : String) : Except String String :=
  if uv_index ≠ "" then do
    let uv_level ← pyInt uv_index
    pure (if uv_level ≤ 2 then "弱"
      else if uv_level ≤ 5 then "中等"
      else if uv_level ≤ 7 then "强"
      else "很强")
  else
    pure ""

/-- An element of the forecast tool's gather `results` list. -/
inductive FSubResult where
  | ddata (ds : List DayRec)
  | exn (msg : String)
  | aq (ds : List AqDayRec)
  | idx (xs : List WeatherIndex)

def fGetResult (rs : List FSubResult) (i : Nat) : Except String FSubResult :=
  match rs.get? i with
  | some r => .ok r
  | none => .error "list index out of range"

def fPyTruthy : FSubResult → Bool
  | .ddata ds => !ds.isEmpty
  | .exn _ => true
  | .aq ds => !ds.isEmpty
  | .idx xs => !xs.isEmpty

def fIsExn : FSubResult → Bool
  | .exn _ => true
  | _ => false

/-- Dynamic use of a forecast `results` element as the air-quality
days list; the default branch models Python's dynamic typing and is
unreachable in executions that get this far. -/
def fAsAqDays : FSubResult → List AqDayRec
  | .aq ds => ds
  | _ => []

def fAsIdx : FSubResult → List WeatherIndex
  | .idx xs => xs
  | _ => []

/-- One iteration of the forecast rendering loop (`i` is the 1-based
`enumerate` counter): weekday, UV classification (may raise), the six
fixed lines, the conditional precipitation line (`float` may raise),
the conditional UV line, the positional air-quality line, and the
blank separator. -/
def renderForecastEntry (i : Nat) (day : DayRec)
    (include_air_quality : Bool) (air_quality_days : FSubResult) :
    Except String (List String) := do
  let weekday := weekdayName day.fxDate
  let uv ← uvDesc day.uvIndex
  let base :=
    [toString i ++ ". 📅 " ++ day.fxDate ++ " " ++ weekday,
     "   ☁️ 天气: " ++ day.textDay,
     "   🌙 夜间: " ++ day.textNight,
     "   🌡️ 温度: " ++ day.tempMin ++ "°C ~ " ++ day.tempMax ++ "°C",
     "   🧭 风向: " ++ day.windDirDay ++ " " ++ day.windScaleDay ++ "级",
     "   💧 湿度: " ++ day.humidity ++ "%"]
  let precipLines ←
    if day.precip ≠ "" then do
      let p ← pyFloat day.precip
      pure (if p > 0 then ["   🌧️ 降水: " ++ day.precip ++ "mm"] else [])
    else
      pure ([] : List String)
  let uvLines :=
    if uv ≠ "" then ["   ☀️ 紫外线: " ++ uv ++ " (" ++ day.uvIndex ++ ")"] else []
  let aqLines :=
    if include_air_quality && fPyTruthy air_quality_days
        && !fIsExn air_quality_days
        && decide (i ≤ (fAsAqDays air_quality_days).length) then
      match (fAsAqDays air_quality_days).get? (i - 1) with
      | some aq_day =>
        match aq_day.indexes with
        | [] => []
        | aqi_data :: _ =>
          ["   🌫️ 空气质量: " ++ aqi_data.aqiDisplay ++ " (" ++ aqi_data.category ++ ")"]
      | none => []
    else
      []
  pure (base ++ precipLines ++ uvLines ++ aqLines ++ [""])

/-- The forecast rendering loop over `enumerate(data["daily"][:days], 1)`. -/
def renderForecastEntries (i : Nat) (ds : List DayRec)
    (include_air_quality : Bool) (air_quality_days : FSubResult) :
    Except String (List String) :=
  match ds with
  | [] => .ok []
  | day :: rest => do
    let first ← renderForecastEntry i day include_air_quality air_quality_days
    let more ← renderForecastEntries (i + 1) rest include_air_quality air_quality_days
    pure (first ++ more)

/-- Grouping of the 3-day life indices by index name, preserving the
source's dict insertion order. -/
def groupInsert : List (String × List WeatherIndex) → WeatherIndex →
    List (String × List WeatherIndex)
  | [], x => [(x.name, [x])]
  | (n, ys) :: rest, x =>
    if n = x.name then (n, ys ++ [x]) :: rest
    else (n, ys) :: groupInsert rest x

def groupByName (xs : List WeatherIndex) : List (String × List WeatherIndex) :=
  xs.foldl groupInsert []

/-- The life-indices section of the forecast report. -/
def renderLifeIdxSection (xs : List WeatherIndex) : List String :=
  "\n📊 未来3天生活指数:\n" ::
    (groupByName xs).flatMap (fun g =>
      ("  • " ++ g.1 ++ ":")
        :: g.2.map (fun x => "    " ++ x.category ++ " - " ++ x.text))

/-- Remote behaviour for one `get_weather_forecast` invocation. -/
structure ForecastEnv where
  lookup : Except String (List CityRec)
  daily : Except String (List DayRec)
  aqDays : Except String (List AqDayRec)
  idxResp : Except String (List IdxRec)

/-- The body of `get_weather_forecast`'s `try` block.  `daily = .ok []`
covers both an absent `"daily"` key and an empty array (the source
treats the two identically). -/
def getWeatherForecastE (location : String) (days0 : Int)
    (include_air_quality include_indices : Bool)
    (env : ForecastEnv) : Except String String := do
  let days := normalizeDays days0
  let info ← getCityInfo location env.lookup
  let city_name := info.2.1
  let lat := info.2.2.1
  let lon := info.2.2.2.1
  let results : List FSubResult :=
    [match env.daily with
     | .ok ds => .ddata ds
     | .error e => .exn e]
    ++ (if include_air_quality then [.aq (getAirQualityForecast lat lon env.aqDays)] else [])
    ++ (if include_indices then [.idx (getWeatherIndices env.idxResp)] else [])
  let r0 ← fGetResult results 0
  let data : List DayRec ←
    match r0 with
    | .exn e => .error e
    | .ddata ds => .ok ds
    | _ => .ok []
  let air_quality_days ←
    if include_air_quality then fGetResult results 1 else pure (FSubResult.aq [])
  let indices ←
    if include_indices then fGetResult results 2 else pure (FSubResult.idx [])
  if data.isEmpty then
    pure ("无法获取 " ++ city_name ++ " 的天气预报")
  else do
    let entries ← renderForecastEntries 1 (data.take days.toNat)
      include_air_quality air_quality_days
    let lines := forecastHeader city_name days :: entries
      ++ (if include_indices && fPyTruthy indices && !fIsExn indices then
            renderLifeIdxSection (fAsIdx indices)
          else [])
    pure (String.intercalate "\n" lines)

/-- The tool operation `get_weather_forecast` with its `try`/`except`
boundary. -/
def get_weather_forecast (location : String) (days : Int)
    (include_air_quality include_indices : Bool)
    (env : ForecastEnv) : String :=
  match getWeatherForecastE location days include_air_quality
      include_indices env with
  | .ok s => s
  | .error e => "获取天气预报失败: " ++ e

end WeatherMcp

/-! ### Concrete fixtures

Concrete environments used to evaluate the embedded pipelines on
specific inputs. -/

namespace WeatherMcp

def beijingCity : CityRec :=
  { id := "101010100", name := some "北京", adm1 := "", adm2 := "",
    lat := "39.90", lon := "116.41" }

def clearNow : NowFields :=
  { obsTime := "2024-01-01T12:00+08:00", temp := "20", feelsLike := "19",
    text := "晴", windDir := "北风", windScale := "2", humidity := "40",
    precip := "0.0", vis := "25", pressure := "" }

/-- Environment in which the city lookup and the mandatory
current-conditions fetch both succeed, and every optional endpoint
answers normally. -/
def healthyCurrentEnv : CurrentEnv :=
  { lookup := .ok [beijingCity]
    nowResp := .ok (some clearNow)
    warnResp := .ok { zeroResult := true, alerts := [] }
    aqResp := .ok none
    idxResp := .ok [{ name := "运动指数", category := "适宜", text := "适宜运动" }] }

/-- A forecast day whose `uvIndex` is a nonempty non-numeric string
and whose other fields are empty. -/
def uvUnparsableDay : DayRec :=
  { fxDate := "", tempMax := "", tempMin := "", textDay := "", textNight := "",
    windDirDay := "", windScaleDay := "", humidity := "", precip := "",
    uvIndex := "x" }

/-- Environment in which the city lookup and the mandatory forecast
fetch succeed and the single returned day carries `uvIndex = "x"`. -/
def uvUnparsableEnv : ForecastEnv :=
  { lookup := .ok [beijingCity]
    daily := .ok [uvUnparsableDay]
    aqDays := .ok []
    idxResp := .ok [] }

/-- An ordinary forecast environment for concrete witnesses. -/
def healthyForecastEnv : ForecastEnv :=
  { lookup := .ok [beijingCity]
    daily := .ok [{ fxDate := "2024-01-01", tempMax := "5", tempMin := "-3",
                    textDay := "晴", textNight := "多云", windDirDay := "北风",
                    windScaleDay := "2", humidity := "30", precip := "0.0",
                    uvIndex := "3" }]
    aqDays := .ok []
    idxResp := .ok [] }

/-- A forecast day with every provider field empty. -/
def emptyDay : DayRec :=
  { fxDate := "", tempMax := "", tempMin := "", textDay := "", textNight := "",
    windDirDay := "", windScaleDay := "", humidity := "", precip := "",
    uvIndex := "" }

/-- A forecast day whose `precip` is a nonempty non-numeric string and
whose `uvIndex` is empty. -/
def precipUnparsableDay : DayRec :=
  { emptyDay with precip := "abc" }

/-- Environment in which the city lookup and the mandatory forecast
fetch succeed and the single returned day carries `precip = "abc"`. -/
def precipUnparsableEnv : ForecastEnv :=
  { lookup := .ok [beijingCity]
    daily := .ok [precipUnparsableDay]
    aqDays := .ok []
    idxResp := .ok [] }

/-- A forecast day with a positive parseable `precip` and empty
`uvIndex`. -/
def rainDay : DayRec :=
  { emptyDay with precip := "1.5" }

/-- A forecast day with a parseable `uvIndex` and empty `precip`. -/
def uvSixDay : DayRec :=
  { emptyDay with uvIndex := "6" }

def sampleWarning : WeatherWarning :=
  { sender_name := "北京市气象局", event_type := "大风", severity := "Minor",
    headline := "大风蓝色预警", description := "预计未来24小时有大风",
    instruction := "注意防风", effective_time := "", expire_time := "",
    color := "Blue" }

end WeatherMcp

/-! ## Helper lemmas -/

theorem renderWarningItems_length (i : Nat)
    (ws : List WeatherMcp.WeatherWarning) :
    (WeatherMcp.renderWarningItems i ws).length = 4 * ws.length := by
  induction ws generalizing i with
  | nil => simp [WeatherMcp.renderWarningItems]
  | cons a rest ih =>
    simp [WeatherMcp.renderWarningItems, ih]
    ring

theorem renderWarningItems_get (i k : Nat)
    (ws : List WeatherMcp.WeatherWarning) (w : WeatherMcp.WeatherWarning)
    (h : ws.get? k = some w) :
    (WeatherMcp.renderWarningItems i ws).get? (4 * k) =
      some ("\n  " ++ toString (i + k) ++ ". " ++ w.headline) ∧
    (WeatherMcp.renderWarningItems i ws).get? (4 * k + 3) =
      some ("     描述: " ++ w.description.take 100 ++ "...") := by
  induction ws generalizing i k with
  | nil => simp at h
  | cons a rest ih =>
    cases k with
    | zero =>
      simp at h
      subst h
      exact ⟨rfl, rfl⟩
    | succ k' =>
      have hrec := ih (i + 1) k' (by simpa using h)
      have hl : ([("\n  " ++ toString i ++ ". " ++ a.headline),
          ("     类型: " ++ a.event_type),
          ("     级别: " ++ a.severity),
          ("     描述: " ++ a.description.take 100 ++ "...")] :
            List String).length = 4 := by simp
      constructor
      · rw [show WeatherMcp.renderWarningItems i (a :: rest) =
            [("\n  " ++ toString i ++ ". " ++ a.headline),
             ("     类型: " ++ a.event_type),
             ("     级别: " ++ a.severity),
             ("     描述: " ++ a.description.take 100 ++ "...")]
              ++ WeatherMcp.renderWarningItems (i + 1) rest from rfl,
          show 4 * (k' + 1) = 4 + 4 * k' by ring,
          List.get?_append_right (by simp)]
        rw [show i + (k' + 1) = (i + 1) + k' by omega]
        simpa using hrec.1
      · rw [show WeatherMcp.renderWarningItems i (a :: rest) =
            [("\n  " ++ toString i ++ ". " ++ a.headline),
             ("     类型: " ++ a.event_type),
             ("     级别: " ++ a.severity),
             ("     描述: " ++ a.description.take 100 ++ "...")]
              ++ WeatherMcp.renderWarningItems (i + 1) rest from rfl,
          show 4 * (k' + 1) + 3 = 4 + (4 * k' + 3) by ring,
          List.get?_append_right (by simp)]
        simpa using hrec.2

/-! ## Theorems -/

/-- C10: in the static-key variant, `main` never starts the RPC serving
loop under any configuration: with the API key missing it prints the
diagnostics and exits with code 1 (the `mcp.run()` call sits after the
unconditional `sys.exit(1)` inside that branch, so it is unreachable),
and with the key configured the branch is skipped and `main` returns
without serving. -/
theorem static_main_never_serves :
    ∀ apiKey : String,
      WeatherServer.Ev.serve ∉ WeatherServer.mainTrace apiKey ∧
      ((apiKey = "" ∨ apiKey = "your_api_key_here") →
        WeatherServer.mainTrace apiKey =
          [.errLine "错误: 未配置和风天气 API Key",
           .errLine "请设置 QWEATHER_API_KEY 环境变量或在 .env 文件中配置",
           .exitCode 1]) ∧
      (¬(apiKey = "" ∨ apiKey = "your_api_key_here") →
        WeatherServer.mainTrace apiKey = []) := by
  intro apiKey
  by_cases h : apiKey = "" ∨ apiKey = "your_api_key_here"
  · refine ⟨?_, fun _ => ?_, fun hc => absurd h hc⟩ <;>
      simp [WeatherServer.mainTrace, WeatherServer.mainStmts, h,
        WeatherServer.execEvents]
  · refine ⟨?_, fun hc => absurd hc h, fun _ => ?_⟩ <;>
      simp [WeatherServer.mainTrace, WeatherServer.mainStmts, h,
        WeatherServer.execEvents]

/-- Closed instances of `static_main_never_serves` at a missing and at
a configured key. -/
theorem static_main_never_serves_witness :
    WeatherServer.mainTrace "" =
      [.errLine "错误: 未配置和风天气 API Key",
       .errLine "请设置 QWEATHER_API_KEY 环境变量或在 .env 文件中配置",
       .exitCode 1] ∧
    WeatherServer.mainTrace "real-key" = [] ∧
    WeatherServer.Ev.serve ∉ WeatherServer.mainTrace "" := by
  refine ⟨(static_main_never_serves "").2.1 (Or.inl rfl), ?_,
    (static_main_never_serves "").1⟩
  exact (static_main_never_serves "real-key").2.2 (by simp)

/-- C4: a cached token whose expiry lies more than `REFRESH_MARGIN`
seconds beyond the current time is returned unchanged with no
regeneration; with no cached token, or at or past `expiry − margin`,
exactly one regeneration happens, the new cached expiry is
`now + 82800`, and the signed payload's `iat` is `now − 30`. -/
theorem jwt_get_token_refresh_policy :
    ∀ (s : WeatherMcp.AuthState) (now : Int) (signOk : Bool)
      (t : WeatherMcp.TokenRec),
      (s.token = some t → now < s.expiry - WeatherMcp.REFRESH_MARGIN →
        WeatherMcp.get_token s now signOk = (s, .ok t, 0)) ∧
      ((s.token = none ∨ now ≥ s.expiry - WeatherMcp.REFRESH_MARGIN) →
        (WeatherMcp.get_token s now true).2.2 = 1 ∧
        (WeatherMcp.get_token s now true).1.expiry = now + 82800 ∧
        (WeatherMcp.get_token s now true).2.1 =
          .ok { kid := s.keyId, sub := s.projectId, iat := now - 30,
                exp := now + 82800 } ∧
        (WeatherMcp.get_token s now true).1.token =
          some { kid := s.keyId, sub := s.projectId, iat := now - 30,
                 exp := now + 82800 }) := by
  intro s now signOk t
  constructor
  · intro ht hlt
    simp [WeatherMcp.get_token, ht, not_le.mpr hlt]
  · intro h
    rcases hs : s.token with _ | t'
    · simp [WeatherMcp.get_token, hs, WeatherMcp.generateTokenE,
        WeatherMcp.TOKEN_EXPIRY]
    · have hge : now ≥ s.expiry - WeatherMcp.REFRESH_MARGIN := by
        rcases h with h | h
        · rw [hs] at h; cases h
        · exact h
      simp [WeatherMcp.get_token, hs, hge, WeatherMcp.generateTokenE,
        WeatherMcp.TOKEN_EXPIRY]

/-- Closed instances of `jwt_get_token_refresh_policy`: a fresh cached
token is returned unchanged, and a first call on an empty cache
regenerates with the stated expiry and `iat`. -/
theorem jwt_get_token_refresh_policy_witness :
    WeatherMcp.get_token
        ⟨"p", "k", some ⟨"k", "p", -30, 82800⟩, 82800⟩ 1000 true =
      (⟨"p", "k", some ⟨"k", "p", -30, 82800⟩, 82800⟩,
        .ok ⟨"k", "p", -30, 82800⟩, 0) ∧
    (WeatherMcp.get_token ⟨"p", "k", none, 0⟩ 50 true).2.2 = 1 ∧
    (WeatherMcp.get_token ⟨"p", "k", none, 0⟩ 50 true).1.expiry = 50 + 82800 ∧
    (WeatherMcp.get_token ⟨"p", "k", none, 0⟩ 50 true).2.1 =
      .ok { kid := "k", sub := "p", iat := 50 - 30, exp := 50 + 82800 } ∧
    (WeatherMcp.get_token ⟨"p", "k", none, 0⟩ 50 true).1.token =
      some { kid := "k", sub := "p", iat := 50 - 30, exp := 50 + 82800 } := by
  refine ⟨?_, ?_⟩
  · exact (jwt_get_token_refresh_policy ⟨"p", "k", some ⟨"k", "p", -30, 82800⟩,
      82800⟩ 1000 true ⟨"k", "p", -30, 82800⟩).1 rfl
      (by norm_num [WeatherMcp.REFRESH_MARGIN])
  · exact (jwt_get_token_refresh_policy ⟨"p", "k", none, 0⟩ 50 true
      ⟨"k", "p", 0, 0⟩).2 (Or.inl rfl)

/-- C5: the cached pair is NOT always self-consistent.  After a
successful generation at time 0 the pair is consistent, but a refresh
attempt at time 82800 whose signing call raises leaves the stored
expiry at 165600 while the stored token is still the one whose payload
expiry is 82800 — a token from one generation paired with another
generation's expiry (`_generate_token` assigns `self._expiry` before
the fallible `jwt.encode`). -/
theorem jwt_inconsistent_pair_after_failed_refresh :
    ((WeatherMcp.get_token ⟨"p", "k", none, 0⟩ 0 true).1.token.map
        WeatherMcp.TokenRec.exp =
      some (WeatherMcp.get_token ⟨"p", "k", none, 0⟩ 0 true).1.expiry) ∧
    ((WeatherMcp.get_token
          (WeatherMcp.get_token ⟨"p", "k", none, 0⟩ 0 true).1
          82800 false).1.token.map WeatherMcp.TokenRec.exp = some 82800) ∧
    ((WeatherMcp.get_token
          (WeatherMcp.get_token ⟨"p", "k", none, 0⟩ 0 true).1
          82800 false).1.expiry = 165600) := by
  refine ⟨rfl, rfl, rfl⟩

/-- C2: both tool operations always return a string — the formatted
report when the pipeline body succeeds, and otherwise the textual
failure message embedding the exception's description — so no
exception crosses the tool boundary for any input or remote
behaviour. -/
theorem tools_always_return_text :
    ∀ (location : String) (w a i : Bool) (env : WeatherMcp.CurrentEnv)
      (days : Int) (fenv : WeatherMcp.ForecastEnv),
      ((∃ r, WeatherMcp.getCurrentWeatherE location w a i env = .ok r ∧
          WeatherMcp.get_current_weather location w a i env = r) ∨
        (∃ e, WeatherMcp.getCurrentWeatherE location w a i env = .error e ∧
          WeatherMcp.get_current_weather location w a i env =
            "获取天气失败: " ++ e)) ∧
      ((∃ r, WeatherMcp.getWeatherForecastE location days a i fenv = .ok r ∧
          WeatherMcp.get_weather_forecast location days a i fenv = r) ∨
        (∃ e, WeatherMcp.getWeatherForecastE location days a i fenv = .error e ∧
          WeatherMcp.get_weather_forecast location days a i fenv =
            "获取天气预报失败: " ++ e)) := by
  intro location w a i env days fenv
  constructor
  · cases h : WeatherMcp.getCurrentWeatherE location w a i env with
    | ok r => exact Or.inl ⟨r, rfl, by simp [WeatherMcp.get_current_weather, h]⟩
    | error e => exact Or.inr ⟨e, rfl, by simp [WeatherMcp.get_current_weather, h]⟩
  · cases h : WeatherMcp.getWeatherForecastE location days a i fenv with
    | ok r => exact Or.inl ⟨r, rfl, by simp [WeatherMcp.get_weather_forecast, h]⟩
    | error e => exact Or.inr ⟨e, rfl, by simp [WeatherMcp.get_weather_forecast, h]⟩

/-- C3: a purely-numeric location is returned unchanged as both the
canonical identifier and the display name, and the resolver's result
does not depend on the search endpoint's behaviour (no network call);
for non-numeric input the resolver takes the first search match and
builds the display name as `adm1 ++ name` when `adm1` is nonempty and
differs from the city name, else just the city name — and the
JWT-variant's `_get_city_info` builds its display name the same way. -/
theorem location_resolver_numeric_and_first_match :
    ∀ (location : String) (lookup lookup2 : Except String (List WeatherServer.CityRec)),
      (pyIsdigit location = true →
        WeatherServer.getLocationId location lookup = .ok (location, location) ∧
        WeatherServer.getLocationId location lookup =
          WeatherServer.getLocationId location lookup2) ∧
      (pyIsdigit location = false →
        ∀ (city : WeatherServer.CityRec) (rest : List WeatherServer.CityRec),
          lookup = .ok (city :: rest) →
          WeatherServer.getLocationId location lookup =
            .ok (city.id,
              if city.adm1 ≠ "" ∧ city.adm1 ≠ city.name.getD location then
                city.adm1 ++ city.name.getD location
              else
                city.name.getD location)) ∧
      (∀ (city : WeatherMcp.CityRec) (rest : List WeatherMcp.CityRec),
        WeatherMcp.getCityInfo location (.ok (city :: rest)) =
          .ok (city.id,
            (if city.adm1 ≠ "" ∧ city.adm1 ≠ city.name.getD location then
              city.adm1 ++ city.name.getD location
            else
              city.name.getD location),
            city.lat, city.lon, city.adm1, city.adm2)) := by
  intro location lookup lookup2
  refine ⟨fun h => ?_, fun h city rest hl => ?_, fun city rest => ?_⟩
  · constructor <;> simp [WeatherServer.getLocationId, h]
  · subst hl
    simp [WeatherServer.getLocationId, h]
  · simp [WeatherMcp.getCityInfo]

/-- Closed instances of `location_resolver_numeric_and_first_match`:
the numeric identifier "101010100" is passed through untouched for two
different lookup behaviours, and a non-numeric query picks the first
match with the province-prefixed display name. -/
theorem location_resolver_numeric_and_first_match_witness :
    WeatherServer.getLocationId "101010100" (.error "boom") =
      .ok ("101010100", "101010100") ∧
    WeatherServer.getLocationId "101010100" (.error "boom") =
      WeatherServer.getLocationId "101010100" (.ok []) ∧
    WeatherServer.getLocationId "朝阳"
        (.ok [{ id := "101010300", name := some "朝阳", adm1 := "北京市",
                adm2 := "北京" }]) =
      .ok ("101010300", "北京市朝阳") := by
  refine ⟨((location_resolver_numeric_and_first_match "101010100"
      (.error "boom") (.ok [])).1 rfl).1,
    ((location_resolver_numeric_and_first_match "101010100"
      (.error "boom") (.ok [])).1 rfl).2, ?_⟩
  have h := (location_resolver_numeric_and_first_match "朝阳"
      (.ok [{ id := "101010300", name := some "朝阳", adm1 := "北京市",
              adm2 := "北京" }]) (.ok [])).2.1 rfl
      { id := "101010300", name := some "朝阳", adm1 := "北京市", adm2 := "北京" }
      [] rfl
  simpa using h

/-- C6: a `days` value outside `{3, 7, 10, 15, 30}` is silently
replaced by 7 — the forecast tool behaves exactly as if 7 had been
requested, no error is surfaced — and the report header announces a
7-day forecast. -/
theorem forecast_days_coercion :
    ∀ days : Int, days ∉ WeatherMcp.validDays →
      WeatherMcp.normalizeDays days = 7 ∧
      (∀ (location : String) (a i : Bool) (env : WeatherMcp.ForecastEnv),
        WeatherMcp.get_weather_forecast location days a i env =
          WeatherMcp.get_weather_forecast location 7 a i env) ∧
      (∀ city_name : String,
        WeatherMcp.forecastHeader city_name (WeatherMcp.normalizeDays days) =
          WeatherMcp.forecastHeader city_name 7) := by
  intro days h
  have hn : WeatherMcp.normalizeDays days = 7 := by
    simp [WeatherMcp.normalizeDays, h]
  have h7 : WeatherMcp.normalizeDays 7 = 7 := by
    simp [WeatherMcp.normalizeDays, WeatherMcp.validDays]
  refine ⟨hn, fun location a i env => ?_, fun city_name => ?_⟩
  · unfold WeatherMcp.get_weather_forecast WeatherMcp.getWeatherForecastE
    rw [hn, h7]
  · rw [hn]

/-- Closed instance of `forecast_days_coercion` at the spec's scenario
`days = 8`. -/
theorem forecast_days_coercion_witness :
    WeatherMcp.normalizeDays 8 = 7 ∧
    WeatherMcp.get_weather_forecast "上海" 8 true true
        WeatherMcp.healthyForecastEnv =
      WeatherMcp.get_weather_forecast "上海" 7 true true
        WeatherMcp.healthyForecastEnv ∧
    WeatherMcp.forecastHeader "上海" (WeatherMcp.normalizeDays 8) =
      "📍 上海 未来7天天气预报:\n" := by
  have h := forecast_days_coercion 8 (by decide)
  refine ⟨h.1, h.2.1 "上海" true true WeatherMcp.healthyForecastEnv, ?_⟩
  rw [h.2.2 "上海"]
  rfl

/-- C8: when a forecast entry's `uv_index` parses as a number, the
rendered classification buckets the value as at most 2 → weak (弱), at
most 5 → moderate (中等), at most 7 → strong (强), above 7 → very
strong (很强); in particular "6" classifies as strong and "9" as very
strong. -/
theorem uv_classification :
    (∀ (s : String) (v : Int), s ≠ "" → pyInt s = .ok v →
      (v ≤ 2 → WeatherMcp.uvDesc s = .ok "弱") ∧
      (2 < v → v ≤ 5 → WeatherMcp.uvDesc s = .ok "中等") ∧
      (5 < v → v ≤ 7 → WeatherMcp.uvDesc s = .ok "强") ∧
      (7 < v → WeatherMcp.uvDesc s = .ok "很强")) ∧
    WeatherMcp.uvDesc "6" = .ok "强" ∧
    WeatherMcp.uvDesc "9" = .ok "很强" := by
  refine ⟨fun s v hs hv => ?_, rfl, rfl⟩
  have hbase : WeatherMcp.uvDesc s =
      .ok (if v ≤ 2 then "弱" else if v ≤ 5 then "中等"
        else if v ≤ 7 then "强" else "很强") := by
    simp [WeatherMcp.uvDesc, hs, hv]
  refine ⟨fun h1 => ?_, fun h1 h2 => ?_, fun h1 h2 => ?_, fun h1 => ?_⟩
  · rw [hbase, if_pos h1]
  · rw [hbase, if_neg (by omega), if_pos h2]
  · rw [hbase, if_neg (by omega), if_neg (by omega), if_pos h2]
  · rw [hbase, if_neg (by omega), if_neg (by omega), if_neg (by omega)]

/-- Closed instances of `uv_classification` covering the two lower
buckets as well. -/
theorem uv_classification_witness :
    WeatherMcp.uvDesc "1" = .ok "弱" ∧ WeatherMcp.uvDesc "4" = .ok "中等" := by
  refine ⟨(uv_classification.1 "1" 1 (by decide) rfl).1 (by norm_num),
    ((uv_classification.1 "4" 4 (by decide) rfl).2.1 (by norm_num)
      (by norm_num))⟩

/-- C7: an alert envelope with `metadata.zeroResult = true` yields an
empty alert list (not an error); and the rendered alert section shows
at most the first 3 alerts in the order received — its length is
`1 + 4·min 3 n`, and the k-th displayed block (k < 3) carries the k-th
received alert's headline and its description truncated to 100
characters followed by an ellipsis. -/
theorem alert_zero_result_and_render_cap :
    (∀ (lat lon : String) (r : WeatherMcp.AlertResp), r.zeroResult = true →
      WeatherMcp.getWeatherWarning lat lon (.ok r) = []) ∧
    (∀ ws : List WeatherMcp.WeatherWarning,
      (WeatherMcp.renderWarningSection ws).length = 1 + 4 * min 3 ws.length ∧
      (∀ (k : Nat) (w : WeatherMcp.WeatherWarning), k < 3 →
        ws.get? k = some w →
        (WeatherMcp.renderWarningSection ws).get? (4 * k + 1) =
          some ("\n  " ++ toString (k + 1) ++ ". " ++ w.headline) ∧
        (WeatherMcp.renderWarningSection ws).get? (4 * k + 4) =
          some ("     描述: " ++ w.description.take 100 ++ "..."))) := by
  constructor
  · intro lat lon r hz
    by_cases hll : lat = "" ∨ lon = "" <;>
      simp [WeatherMcp.getWeatherWarning, hll, hz]
  · intro ws
    constructor
    · simp [WeatherMcp.renderWarningSection, renderWarningItems_length,
        List.length_take]
      omega
    · intro k w hk hget
      have htake : (ws.take 3).get? k = some w := by
        rw [List.get?_take hk]
        exact hget
      have h := renderWarningItems_get 1 k (ws.take 3) w htake
      have e1 : (WeatherMcp.renderWarningSection ws).get? (4 * k + 1) =
          (WeatherMcp.renderWarningItems 1 (ws.take 3)).get? (4 * k) := by
        simp [WeatherMcp.renderWarningSection]
      have e2 : (WeatherMcp.renderWarningSection ws).get? (4 * k + 4) =
          (WeatherMcp.renderWarningItems 1 (ws.take 3)).get? (4 * k + 3) := by
        simp [WeatherMcp.renderWarningSection]
      rw [e1, e2, show 1 + k = k + 1 from by omega] at *
      exact ⟨by rw [show k + 1 = 1 + k from by omega] at h ⊢; exact h.1, h.2⟩

/-- Closed instances of `alert_zero_result_and_render_cap`: a
zero-result envelope decodes to no alerts, and a one-alert section
carries the numbered headline and the truncated description. -/
theorem alert_zero_result_and_render_cap_witness :
    WeatherMcp.getWeatherWarning "39.90" "116.41"
        (.ok { zeroResult := true,
               alerts := [{ senderName := "", eventTypeName := "", severity := "",
                            headline := "h", description := "d", instruction := "",
                            effectiveTime := "", expireTime := "", colorCode := "" }] })
      = [] ∧
    (WeatherMcp.renderWarningSection [WeatherMcp.sampleWarning]).length =
      1 + 4 * min 3 1 ∧
    (WeatherMcp.renderWarningSection [WeatherMcp.sampleWarning]).get? 1 =
      some ("\n  " ++ toString (0 + 1) ++ ". " ++
        WeatherMcp.sampleWarning.headline) ∧
    (WeatherMcp.renderWarningSection [WeatherMcp.sampleWarning]).get? 4 =
      some ("     描述: " ++ WeatherMcp.sampleWarning.description.take 100 ++
        "...") := by
  have h2 := (alert_zero_result_and_render_cap.2 [WeatherMcp.sampleWarning]).2
    0 WeatherMcp.sampleWarning (by omega) rfl
  exact ⟨alert_zero_result_and_render_cap.1 "39.90" "116.41" _ rfl,
    (alert_zero_result_and_render_cap.2 [WeatherMcp.sampleWarning]).1,
    h2.1, h2.2⟩

/-- C1 (code bug): the mandatory current-conditions fetch succeeds in
`healthyCurrentEnv` — with all three optional flags enabled the tool
renders a full report — yet with `include_warning = false`,
`include_air_quality = false`, `include_indices = true` the same
environment produces the textual failure message: the gather task list
is built conditionally but parsed at the fixed indices
`results[1]`/`results[2]`/`results[3]`, so `results[3]` raises
`IndexError` on the 2-element result list even though the mandatory
fetch succeeded. -/
theorem current_weather_flag_misalignment_failure :
    WeatherMcp.healthyCurrentEnv.nowResp = .ok (some WeatherMcp.clearNow) ∧
    WeatherMcp.get_current_weather "北京" true true true
        WeatherMcp.healthyCurrentEnv =
      "📍 城市: 北京\n🕐 观测时间: 2024-01-01T12:00+08:00\n🌡️ 温度: 20°C\n🤒 体感温度: 19°C\n☁️ 天气: 晴\n🧭 风向: 北风\n💨 风力: 2级\n💧 湿度: 40%\n🌧️ 降水量: 0.0mm\n👁️ 能见度: 25km\n\n📊 今日指数:\n  • 运动指数: 适宜\n    适宜运动" ∧
    WeatherMcp.get_current_weather "北京" false false true
        WeatherMcp.healthyCurrentEnv =
      "获取天气失败: list index out of range" := by
  refine ⟨rfl, rfl, rfl⟩

/-- C9 counterexample: with a successfully fetched forecast whose
single entry has the unparsable `uvIndex = "x"`, the renderer does not
omit the UV line and continue — `int("x")` raises and the whole report
collapses to the textual failure message; likewise an entry with the
unparsable `precip = "abc"` makes `float("abc")` raise and the whole
report fails. -/
theorem uv_unparsable_aborts_report :
    WeatherMcp.uvUnparsableEnv.daily = .ok [WeatherMcp.uvUnparsableDay] ∧
    WeatherMcp.uvUnparsableDay.uvIndex = "x" ∧
    WeatherMcp.get_weather_forecast "上海" 7 true true
        WeatherMcp.uvUnparsableEnv =
      "获取天气预报失败: invalid literal for int() with base 10: \x27x\x27" ∧
    WeatherMcp.precipUnparsableEnv.daily = .ok [WeatherMcp.precipUnparsableDay] ∧
    WeatherMcp.precipUnparsableDay.precip = "abc" ∧
    WeatherMcp.get_weather_forecast "上海" 7 true true
        WeatherMcp.precipUnparsableEnv =
      "获取天气预报失败: could not convert string to float: \x27abc\x27" := by
  refine ⟨rfl, rfl, rfl, rfl, rfl, rfl⟩

/-- C9 amended: an EMPTY `uv_index` or `precip` string is treated as
absent — that line is omitted (each independently of the other field),
the entry renders without raising, and the value is never interpreted
as zero; a NONEMPTY `uv_index` or `precip` that fails numeric parsing,
however, raises `ValueError` out of the renderer — `int()` for the UV
index and `float()` for the precipitation — which the tool boundary
then turns into a textual failure message instead of a report. -/
theorem uv_precip_empty_treated_absent :
    (∀ (i : Nat) (day : WeatherMcp.DayRec),
      day.uvIndex = "" → day.precip = "" →
      WeatherMcp.renderForecastEntry i day false (.aq []) =
        .ok [toString i ++ ". 📅 " ++ day.fxDate ++ " " ++
              WeatherMcp.weekdayName day.fxDate,
             "   ☁️ 天气: " ++ day.textDay,
             "   🌙 夜间: " ++ day.textNight,
             "   🌡️ 温度: " ++ day.tempMin ++ "°C ~ " ++ day.tempMax ++ "°C",
             "   🧭 风向: " ++ day.windDirDay ++ " " ++ day.windScaleDay ++ "级",
             "   💧 湿度: " ++ day.humidity ++ "%",
             ""]) ∧
    (∀ (i : Nat) (day : WeatherMcp.DayRec) (p : Rat),
      day.uvIndex = "" → day.precip ≠ "" → pyFloat day.precip = .ok p →
      WeatherMcp.renderForecastEntry i day false (.aq []) =
        .ok ([toString i ++ ". 📅 " ++ day.fxDate ++ " " ++
              WeatherMcp.weekdayName day.fxDate,
             "   ☁️ 天气: " ++ day.textDay,
             "   🌙 夜间: " ++ day.textNight,
             "   🌡️ 温度: " ++ day.tempMin ++ "°C ~ " ++ day.tempMax ++ "°C",
             "   🧭 风向: " ++ day.windDirDay ++ " " ++ day.windScaleDay ++ "级",
             "   💧 湿度: " ++ day.humidity ++ "%"]
          ++ (if p > 0 then ["   🌧️ 降水: " ++ day.precip ++ "mm"] else [])
          ++ [""])) ∧
    (∀ (i : Nat) (day : WeatherMcp.DayRec) (v : Int),
      day.precip = "" → day.uvIndex ≠ "" → pyInt day.uvIndex = .ok v →
      WeatherMcp.renderForecastEntry i day false (.aq []) =
        .ok [toString i ++ ". 📅 " ++ day.fxDate ++ " " ++
              WeatherMcp.weekdayName day.fxDate,
             "   ☁️ 天气: " ++ day.textDay,
             "   🌙 夜间: " ++ day.textNight,
             "   🌡️ 温度: " ++ day.tempMin ++ "°C ~ " ++ day.tempMax ++ "°C",
             "   🧭 风向: " ++ day.windDirDay ++ " " ++ day.windScaleDay ++ "级",
             "   💧 湿度: " ++ day.humidity ++ "%",
             "   ☀️ 紫外线: " ++
               (if v ≤ 2 then "弱" else if v ≤ 5 then "中等"
                 else if v ≤ 7 then "强" else "很强") ++
               " (" ++ day.uvIndex ++ ")",
             ""]) ∧
    (∀ (i : Nat) (day : WeatherMcp.DayRec) (b : Bool)
      (aqv : WeatherMcp.FSubResult) (e : String),
      day.uvIndex ≠ "" → pyInt day.uvIndex = .error e →
      WeatherMcp.renderForecastEntry i day b aqv = .error e) ∧
    (∀ (i : Nat) (day : WeatherMcp.DayRec) (b : Bool)
      (aqv : WeatherMcp.FSubResult) (u e : String),
      WeatherMcp.uvDesc day.uvIndex = .ok u →
      day.precip ≠ "" → pyFloat day.precip = .error e →
      WeatherMcp.renderForecastEntry i day b aqv = .error e) := by
  refine ⟨fun i day huv hpr => ?_, fun i day p huv hpr hf => ?_,
    fun i day v hpr huv hv => ?_, fun i day b aqv e huv he => ?_,
    fun i day b aqv u e hu hpr hf => ?_⟩
  · simp [WeatherMcp.renderForecastEntry, WeatherMcp.uvDesc, huv, hpr]
    rfl
  · simp [WeatherMcp.renderForecastEntry, WeatherMcp.uvDesc, huv, hpr, hf]
  · have hne : (if v ≤ 2 then "弱" else if v ≤ 5 then "中等"
        else if v ≤ 7 then "强" else "很强") ≠ "" := by
      by_cases h2 : v ≤ 2
      · simp [h2]
      · by_cases h5 : v ≤ 5
        · simp [h2, h5]
        · by_cases h7 : v ≤ 7
          · simp [h2, h5, h7]
          · simp [h2, h5, h7]
    simp [WeatherMcp.renderForecastEntry, WeatherMcp.uvDesc, huv, hpr, hv, hne]
  · simp [WeatherMcp.renderForecastEntry, WeatherMcp.uvDesc, huv, he]
    rfl
  · simp [WeatherMcp.renderForecastEntry, hu, hpr, hf]
    rfl

/-- Closed instances of `uv_precip_empty_treated_absent`: the
all-empty day renders with neither a UV nor a precipitation line; an
empty UV index with a parseable positive precipitation renders the
precipitation line but no UV line; an empty precipitation with
`uvIndex = "6"` renders the UV line but no precipitation line; the
`uvIndex = "x"` day aborts with the `int()` `ValueError` description;
and the `precip = "abc"` day aborts with the `float()` `ValueError`
description. -/
theorem uv_precip_empty_treated_absent_witness :
    WeatherMcp.renderForecastEntry 1 WeatherMcp.emptyDay false (.aq []) =
      .ok ["1. 📅  ", "   ☁️ 天气: ", "   🌙 夜间: ", "   🌡️ 温度: °C ~ °C",
           "   🧭 风向:  级", "   💧 湿度: %", ""] ∧
    WeatherMcp.renderForecastEntry 1 WeatherMcp.rainDay false (.aq []) =
      Except.map (fun p =>
        ["1. 📅  ", "   ☁️ 天气: ", "   🌙 夜间: ", "   🌡️ 温度: °C ~ °C",
         "   🧭 风向:  级", "   💧 湿度: %"]
        ++ (if p > 0 then ["   🌧️ 降水: 1.5mm"] else []) ++ [""])
        (pyFloat WeatherMcp.rainDay.precip) ∧
    WeatherMcp.renderForecastEntry 1 WeatherMcp.uvSixDay false (.aq []) =
      .ok ["1. 📅  ", "   ☁️ 天气: ", "   🌙 夜间: ", "   🌡️ 温度: °C ~ °C",
           "   🧭 风向:  级", "   💧 湿度: %", "   ☀️ 紫外线: 强 (6)", ""] ∧
    WeatherMcp.renderForecastEntry 2 WeatherMcp.uvUnparsableDay true (.aq []) =
      .error "invalid literal for int() with base 10: \x27x\x27" ∧
    WeatherMcp.renderForecastEntry 3 WeatherMcp.precipUnparsableDay true (.aq []) =
      .error "could not convert string to float: \x27abc\x27" := by
  refine ⟨?_, ?_, ?_, ?_, ?_⟩
  · have h1 := uv_precip_empty_treated_absent.1 1 WeatherMcp.emptyDay rfl rfl
    rw [h1]
    congr 1
  · obtain ⟨p, hpf⟩ : ∃ q, pyFloat WeatherMcp.rainDay.precip = .ok q :=
      ⟨_, rfl⟩
    have h2 := uv_precip_empty_treated_absent.2.1 1 WeatherMcp.rainDay p
      rfl (by decide) hpf
    rw [h2, hpf]
    simp only [Except.map]
    congr 1
  · have h3 := uv_precip_empty_treated_absent.2.2.1 1 WeatherMcp.uvSixDay
      6 rfl (by decide) rfl
    rw [h3]
    congr 1
  · exact uv_precip_empty_treated_absent.2.2.2.1 2 WeatherMcp.uvUnparsableDay
      true (.aq []) _ (by decide) rfl
  · exact uv_precip_empty_treated_absent.2.2.2.2 3 WeatherMcp.precipUnparsableDay
      true (.aq []) "" _ rfl (by decide) rfl

end WeatherSpec
